import Mathlib

/-!
Shallow embedding of the go-ipc core (shared-memory objects, memory-region
mapping, lightweight cross-process mutex wrappers, fifo, and the
plain-old-data copier) and proofs of the specification claims about it.

OS interactions (file system calls, Windows API calls) are modelled by
explicit environments: a function from the call arguments to the outcome the
operating system would return.  Each Go function is transcribed into a Lean
function over such an environment; where the transcription needs to show
which calls were made (for claims about cleanup or about which names are
touched), the function also returns a trace record.
-/

namespace GoIpc

/-- Outcome of an OS call that can fail.  `notExist` is an error for which
Go reports `os.IsNotExist`, `alreadyExists` one for which `os.IsExist`
holds, `other` any further error. -/
inductive OSError where
  | notExist
  | alreadyExists
  | other (msg : String)
deriving DecidableEq, Repr

/-- Whether `os.IsNotExist` reports true for this error. -/
def OSError.isNotExist : OSError → Bool
  | .notExist => true
  | _ => false

/-- Whether `os.IsExist` reports true for this error. -/
def OSError.isExist : OSError → Bool
  | .alreadyExists => true
  | _ => false

/-- File-system environment: the results the OS gives to the calls made by
the shm and fifo code.  `mkdirResult path perm = none` means `os.Mkdir`
succeeded, `some e` that it failed with `e`; likewise for `removeResult`. -/
structure FsEnv where
  tempDir : String
  mkdirResult : String → Nat → Option OSError
  removeResult : String → Option OSError

/-- A recorded `os.Mkdir` call: the path and the permission mode passed. -/
structure MkdirCall where
  path : String
  perm : Nat
deriving DecidableEq, Repr

/-- Transcription of `sharedDirName` (src/shm/shared_memory_windows.go):
builds `os.TempDir() + "/go-ipc"`, calls `os.Mkdir(rootPath, 0644)` and
ignores an already-exists error.  Also returns the `Mkdir` calls made. -/
def sharedDirName (env : FsEnv) : Except OSError String × List MkdirCall :=
  let rootPath := env.tempDir ++ "/go-ipc"
  let calls := [MkdirCall.mk rootPath 0o644]
  match env.mkdirResult rootPath 0o644 with
  | none => (.ok rootPath, calls)
  | some e => if e.isExist then (.ok rootPath, calls) else (.error e, calls)

/-- Transcription of `shmName` (src/shm/shared_memory_windows.go): the
shared directory joined with the object name by `"/"`. -/
def shmName (env : FsEnv) (name : String) : Except OSError String × List MkdirCall :=
  match sharedDirName env with
  | (.error e, calls) => (.error e, calls)
  | (.ok path, calls) => (.ok (path ++ "/" ++ name), calls)

/-- Transcription of `destroyMemoryObject` (src/shm/shared_memory_windows.go):
resolve the path, `os.Remove` it, and convert a not-exist failure of the
removal into success. -/
def destroyMemoryObject (env : FsEnv) (name : String) : Option OSError :=
  match (shmName env name).1 with
  | .error e => some e
  | .ok path =>
    match env.removeResult path with
    | none => none
    | some e => if e.isNotExist then none else some e

/-- Transcription of `fifoPath` (src/fifo_unix.go): a name containing a
slash is used as is, otherwise the fifo lives under `/tmp/`. -/
def fifoPath (name : String) : String :=
  if name.contains '/' then name else "/tmp/" ++ name

/-- Transcription of `DestroyFifo` (src/fifo_unix.go): `os.Remove` the fifo
path, converting a not-exist failure into success. -/
def DestroyFifo (env : FsEnv) (name : String) : Option OSError :=
  match env.removeResult (fifoPath name) with
  | none => none
  | some e => if e.isNotExist then none else some e

/-- The result of `file.Stat()` as seen by `memoryObject.Size`: either an
error or a file info carrying the current size. -/
def memoryObjectSize (stat : Except OSError Int) : Int :=
  match stat with
  | .error _ => 0
  | .ok sz => sz

/-- Modelled from the spec: `mutexSharedStateName` is not under src/ (only
its callers are).  The spec defines the derived name as the user name with
a variant-suffix tag appended: `<user-name> + <variant-suffix>` where the
suffix is `"f"` for the futex variant and `"s"` for the semaphore variant. -/
def mutexSharedStateName (name typ : String) : String :=
  name ++ typ

/-- Trace of the externally visible actions of a mutex constructor run:
which shm object name was asked for, whether the shm call reported the
object as created, whether the lightweight mutex `init` (the write of `0`
to the shared word) was invoked, whether a region was mapped, and which
cleanup calls ran. -/
structure ConstrTrace where
  objName : Option String := none
  createdFlag : Bool := false
  initCalled : Bool := false
  regionMapped : Bool := false
  objClosed : Bool := false
  regionClosed : Bool := false
  objDestroyed : Bool := false
deriving DecidableEq, Repr

/-- A constructed futex mutex handle: the user name it was built for
(the region and lightweight mutex are left abstract). -/
structure FutexMutex where
  name : String
deriving DecidableEq, Repr

/-- Environment for `NewFutexMutex`: whether `ensureOpenFlags` accepts the
flags, the outcome of `shm.NewMemoryObjectSize` for a given object name
(`ok created` or an error), and the outcome of `mmf.NewMemoryRegion`. -/
structure FutexEnv where
  flagOk : Bool
  shmResult : String → Except String Bool
  regionResult : Except String Unit

/-- Transcription of `NewFutexMutex` (src/sync/mutex_futex.go): validate
flags; obtain the shm object under the derived name with suffix `"f"`; map
a region; call `lwm.init()` exactly when `created`; the deferred block
always closes the object, and on error closes a mapped region and destroys
the object when this call created it. -/
def NewFutexMutex (env : FutexEnv) (name : String) :
    Except String FutexMutex × ConstrTrace :=
  if !env.flagOk then (.error "invalid open flags", {})
  else
    let stateName := mutexSharedStateName name "f"
    match env.shmResult stateName with
    | .error e => (.error ("failed to create shm object: " ++ e),
        { objName := some stateName })
    | .ok created =>
      match env.regionResult with
      | .error e => (.error ("failed to create shm region: " ++ e),
          { objName := some stateName, createdFlag := created,
            objClosed := true, objDestroyed := created })
      | .ok _ => (.ok { name := name },
          { objName := some stateName, createdFlag := created,
            initCalled := created, regionMapped := true, objClosed := true })

/-- Trace of `DestroyFutexMutex` / `DestroySemaMutex`: the shm object name
passed to `shm.DestroyMemoryObject`. -/
structure DestroyTrace where
  objName : String
deriving DecidableEq, Repr

/-- Transcription of `DestroyFutexMutex` (src/sync/mutex_futex.go):
destroy the shm object under the derived name with suffix `"f"`. -/
def DestroyFutexMutex (destroyResult : String → Option String) (name : String) :
    Option String × DestroyTrace :=
  let stateName := mutexSharedStateName name "f"
  match destroyResult stateName with
  | some e => (some ("failed to destroy memory object: " ++ e), { objName := stateName })
  | none => (none, { objName := stateName })

/-- A constructed semaphore-based mutex handle. -/
structure SemaMutex where
  name : String
deriving DecidableEq, Repr

/-- Environment for `NewSemaMutex`: flag validation, the outcome of
`createWritableRegion` for a given object name (`ok created` or an error),
and the outcome of `NewSemaphore`.  `createWritableRegion` is not under
src/; modelled from the spec, it obtains the shm object, maps a writable
region over it, closes the object handle (the mapping keeps the memory
alive) and returns the region together with the `was_created` flag, leaving
no OS state behind on its own failure. -/
structure SemaEnv where
  flagOk : Bool
  cwrResult : String → Except String Bool
  semaResult : Except String Unit

/-- Transcription of `NewSemaMutex` (src/sync/mutex_futex.go): validate
flags; create a writable region under the derived name with suffix `"s"`;
create the semaphore, on failure closing the region and destroying the shm
object when this call created it; call `lwm.init()` exactly when `created`. -/
def NewSemaMutex (env : SemaEnv) (name : String) :
    Except String SemaMutex × ConstrTrace :=
  if !env.flagOk then (.error "invalid open flags", {})
  else
    let stateName := mutexSharedStateName name "s"
    match env.cwrResult stateName with
    | .error e => (.error ("failed to create shared state: " ++ e),
        { objName := some stateName })
    | .ok created =>
      match env.semaResult with
      | .error e => (.error ("failed to create a semaphore: " ++ e),
          { objName := some stateName, createdFlag := created,
            regionMapped := true, objClosed := true,
            regionClosed := true, objDestroyed := created })
      | .ok _ => (.ok { name := name },
          { objName := some stateName, createdFlag := created,
            initCalled := created, regionMapped := true, objClosed := true })

/-- Transcription of `DestroySemaMutex` (src/sync/mutex_futex.go), shm
part: destroy the shm object under the derived name with suffix `"s"`
(the companion semaphore destruction is left abstract). -/
def DestroySemaMutex (destroyResult : String → Option String) (name : String) :
    Option String × DestroyTrace :=
  let stateName := mutexSharedStateName name "s"
  match destroyResult stateName with
  | some e => (some ("failed to destroy shared state: " ++ e), { objName := stateName })
  | none => (none, { objName := stateName })

/-- Modelled from the spec: `mmf.MemoryRegion` (the region wrapper held by
`FutexMutex`) is not under src/.  Per the spec, `close(region)` unmaps and
double-close is a no-op: the wrapper remembers whether it was already
closed and a repeated `Close` returns success without touching the OS. -/
structure MemoryRegion where
  closed : Bool
deriving DecidableEq, Repr

/-- Modelled from the spec: `mmf.MemoryRegion.Close` unmaps on first use
(`unmapResult` is the outcome of the unmap call) and is a no-op returning
success when the region is already closed. -/
def memoryRegionClose (r : MemoryRegion) (unmapResult : Option String) :
    Option String × MemoryRegion :=
  if r.closed then (none, r)
  else (unmapResult, { closed := true })

/-- Transcription of `FutexMutex.Close` (src/sync/mutex_futex.go): it
returns `f.region.Close()`.  The state is the handle region. -/
def futexMutexClose (region : MemoryRegion) (unmapResult : Option String) :
    Option String × MemoryRegion :=
  memoryRegionClose region unmapResult

/-! Windows mutex implementation (src/shm/shared_memory_windows.go,
package ipc part). -/

/-- The open-mode enumeration `O_OPEN_ONLY` / `O_CREATE_ONLY` /
`O_OPEN_OR_CREATE`. -/
inductive OpenMode where
  | openOnly
  | createOnly
  | openOrCreate
deriving DecidableEq, Repr

/-- The `mutexImpl` struct: a Windows handle, modelled as a natural
number; the zero value of `windows.Handle` is `0`. -/
structure MutexImpl where
  handle : Nat
deriving DecidableEq, Repr

/-- A recorded Windows API call made by `newMutexImpl`. -/
inductive WinCall where
  | createMutexCall (name : String)
  | openMutexCall (name : String)
deriving DecidableEq, Repr

/-- Transcription of `newMutexImpl` (src/shm/shared_memory_windows.go,
package ipc part): the `O_OPEN_ONLY` and `O_OPEN_OR_CREATE` cases have
empty bodies, so `handle` keeps its zero value and `err` stays nil;
only `O_CREATE_ONLY` calls `createMutex`.  `createResult name` is the
outcome of the `createMutex` call.  Also returns the API calls made. -/
def newMutexImpl (createResult : String → Except OSError Nat)
    (name : String) (mode : OpenMode) :
    Except OSError MutexImpl × List WinCall :=
  match mode with
  | .openOnly => (.ok { handle := 0 }, [])
  | .createOnly =>
    match createResult name with
    | .error e => (.error e, [.createMutexCall name])
    | .ok h => (.ok { handle := h }, [.createMutexCall name])
  | .openOrCreate => (.ok { handle := 0 }, [])

/-! Windows memory-region implementation (src/sync/mutex_futex.go,
package ipc part). -/

/-- Modelled from the spec: `calcValidOffset` is not under src/.  The spec
says the implementation aligns the offset down to page size and maps
`length + (offset - aligned)` bytes; since the code maps
`size + calcValidOffset(offset)` bytes, `calcValidOffset` is the distance
from the aligned-down offset, `offset - (offset / pageSize) * pageSize`. -/
def calcValidOffset (pageSize : Nat) (offset : Nat) : Nat :=
  offset - (offset / pageSize) * pageSize

/-- The memory-region modes accepted by `memProtAndFlagsFromMode`. -/
inductive MemMode where
  | memReadOnly
  | memReadPrivate
  | memReadWrite
  | memCopyOnWrite
  | memOther
deriving DecidableEq, Repr

/-- Transcription of `memProtAndFlagsFromMode` (src/sync/mutex_futex.go,
package ipc part): read-only and read-private map to
`(PAGE_READONLY, FILE_MAP_READ)`, read-write to
`(PAGE_READWRITE, FILE_MAP_WRITE)`, copy-on-write to
`(PAGE_WRITECOPY, FILE_MAP_COPY)`; anything else is an error.  The Windows
constants are their numeric values. -/
def memProtAndFlagsFromMode : MemMode → Except String (Nat × Nat)
  | .memReadOnly => .ok (2, 4)
  | .memReadPrivate => .ok (2, 4)
  | .memReadWrite => .ok (4, 2)
  | .memCopyOnWrite => .ok (8, 1)
  | .memOther => .error "invalid mem region flags"

/-- The `memoryRegionImpl` struct: the mapped byte slice, the requested
size and the page offset.  Bytes are naturals. -/
structure MemoryRegionImpl where
  data : List Nat
  size : Nat
  pageOffset : Nat
deriving DecidableEq, Repr

/-- Environment for `newMemoryRegionImpl`: the system page size, the
outcomes of `CreateFileMapping` and `MapViewOfFile`, and the content of
the mapping (`mem i` is the byte at offset `i` from the mapping base). -/
structure MapEnv where
  pageSize : Nat
  createFileMappingResult : Except OSError Unit
  mapViewResult : Except OSError Unit
  mem : Nat → Nat

/-- Transcription of `newMemoryRegionImpl` (src/sync/mutex_futex.go,
package ipc part): resolve protection flags; `CreateFileMapping`; compute
`pageOffset := calcValidOffset(offset)`; `MapViewOfFile` with length
`size + pageOffset`; the resulting slice has length `sz = size + pageOffset`
and the impl stores `(data, size, pageOffset)`. -/
def newMemoryRegionImpl (env : MapEnv) (mode : MemMode)
    (offset : Nat) (size : Nat) : Except OSError MemoryRegionImpl :=
  match memProtAndFlagsFromMode mode with
  | .error _ => .error (.other "invalid mem region flags")
  | .ok _ =>
    match env.createFileMappingResult with
    | .error e => .error e
    | .ok _ =>
      let pageOffset := calcValidOffset env.pageSize offset
      match env.mapViewResult with
      | .error e => .error e
      | .ok _ =>
        let sz := size + pageOffset
        .ok { data := (List.range sz).map env.mem, size := size,
              pageOffset := pageOffset }

/-- Transcription of `memoryRegionImpl.Data` (src/sync/mutex_futex.go,
package ipc part): `impl.data[impl.pageOffset:]`. -/
def memoryRegionImplData (impl : MemoryRegionImpl) : List Nat :=
  impl.data.drop impl.pageOffset

/-! Plain-old-data copier (src/internal/allocator/object_allocator.go). -/

/-- `maxObjectSize` from src/internal/allocator/object_allocator.go. -/
def maxObjectSize : Nat := 128 * 1024 * 1024

/-- A Go type as seen through `reflect`: a non-composite kind with its
byte size (`reflect.Kind` numbering: Bool = 1 up to Complex128 = 16,
Ptr = 22, String = 24, UnsafePointer = 26, and so on), or an array, a
slice, or a struct with named fields. -/
inductive GoType where
  | basic (kind : Nat) (byteSize : Nat)
  | array (n : Nat) (elem : GoType)
  | slice (elem : GoType)
  | struct (fields : List (String × GoType))

/-- `reflect.Kind` of a type: Array = 17, Slice = 23, Struct = 25. -/
def goTypeKind : GoType → Nat
  | .basic k _ => k
  | .array _ _ => 17
  | .slice _ => 23
  | .struct _ => 25

mutual

/-- `reflect.Type.Size` of a type: element counts times element sizes for
arrays, the slice header size (24 bytes on 64-bit) for slices, and the sum
of field sizes for structs (alignment padding is not modelled). -/
def goTypeSize : GoType → Nat
  | .basic _ s => s
  | .array n e => n * goTypeSize e
  | .slice _ => 24
  | .struct fs => goFieldsSize fs

/-- Sum of the sizes of struct fields. -/
def goFieldsSize : List (String × GoType) → Nat
  | [] => 0
  | f :: rest => goTypeSize f.2 + goFieldsSize rest

end

/-- Transcription of `checkNumericType`
(src/internal/allocator/object_allocator.go): kinds from Bool (1) to
Complex128 (16) and UnsafePointer (26) are accepted. -/
def checkNumericType (kind : Nat) : Except String Unit :=
  if 1 ≤ kind && kind ≤ 16 then .ok ()
  else if kind == 26 then .ok ()
  else .error "unsupported type"

mutual

/-- Transcription of `checkType`
(src/internal/allocator/object_allocator.go): arrays recurse into their
element at depth + 1; slices are rejected at nonzero depth and otherwise
recurse at depth + 1; structs check every field at depth + 1, wrapping the
error with the field name; every other kind goes to `checkNumericType`. -/
def checkType : GoType → Nat → Except String Unit
  | .array _ e, depth => checkType e (depth + 1)
  | .slice e, depth =>
    if depth ≠ 0 then .error "slices as array elems or struct fields are not supported"
    else checkType e (depth + 1)
  | .struct fs, depth => checkFields fs depth
  | .basic k _, _ => checkNumericType k

/-- The field loop of `checkType` on a struct. -/
def checkFields : List (String × GoType) → Nat → Except String Unit
  | [], _ => .ok ()
  | f :: rest, depth =>
    match checkType f.2 (depth + 1) with
    | .error e => .error ("field " ++ f.1 ++ ": " ++ e)
    | .ok _ => checkFields rest depth

end

mutual

/-- Specification-side predicate: a type is reference-free with no slice
anywhere — its leaves are bool/numeric/complex kinds or unsafe.Pointer,
and structs and arrays of such are allowed. -/
def refFreeInner : GoType → Bool
  | .basic k _ => (1 ≤ k && k ≤ 16) || k == 26
  | .array _ e => refFreeInner e
  | .slice _ => false
  | .struct fs => refFreeFields fs

/-- All struct fields are reference-free with no slice anywhere. -/
def refFreeFields : List (String × GoType) → Bool
  | [] => true
  | f :: rest => refFreeInner f.2 && refFreeFields rest

end

/-- Specification-side predicate: reference-free where a slice is allowed
only at the top level (its element must then be slice-free). -/
def refFreeTop : GoType → Bool
  | .slice e => refFreeInner e
  | t => refFreeInner t

/-- A Go value: its type, its length when it is a slice, and the
contiguous byte representation at its address (for a slice, the bytes of
the referenced data). -/
structure GoValue where
  typ : GoType
  sliceLen : Nat
  bytes : List Nat

/-- Transcription of `objectSize`
(src/internal/allocator/object_allocator.go): for a slice,
`Len() * Elem().Size()`; otherwise `Type().Size()`. -/
def objectSize (v : GoValue) : Nat :=
  match v.typ with
  | .slice e => v.sliceLen * goTypeSize e
  | t => goTypeSize t

/-- Transcription of `copyObjectData`
(src/internal/allocator/object_allocator.go): build the byte view of
length `objectSize v` at the object address and `copy` it into `memory`;
Go `copy` moves `min (objectSize v) memory.length` bytes and leaves the
rest of `memory` unchanged. -/
def copyObjectData (v : GoValue) (memory : List Nat) : List Nat :=
  let n := min (objectSize v) memory.length
  (v.bytes.take n) ++ memory.drop n

/-- A value handed to `Alloc`: `ptrDepth` models the leading chain of
pointers that the dereference loop of `Alloc` strips (Go keeps calling
`Elem()` while the kind is Ptr); `value` is the value reached. -/
structure GoObject where
  ptrDepth : Nat
  value : GoValue

/-- Transcription of `Alloc` (src/internal/allocator/object_allocator.go):
a nil interface (`none`) is an invalid object; otherwise the pointer chain
is dereferenced, the size is checked against `maxObjectSize` and against
the buffer length, the type is checked, and only then the bytes are
copied.  Returns the outcome and the resulting memory. -/
def Alloc (memory : List Nat) (object : Option GoObject) :
    Except String Unit × List Nat :=
  match object with
  | none => (.error "inavlid object", memory)
  | some obj =>
    let v := obj.value
    let size := objectSize v
    if size > maxObjectSize then
      (.error "the object exceeds max object size", memory)
    else if size > memory.length then
      (.error "the object is too large for the buffer", memory)
    else
      match checkType v.typ 0 with
      | .error e => (.error e, memory)
      | .ok _ => (.ok (), copyObjectData v memory)

/-- Whether an `Except` result is a success. -/
def exceptIsOk : Except ε α → Bool
  | .ok _ => true
  | .error _ => false

/-- A concrete mapping environment: page size 4096, both OS calls
succeed, the mapping reads as zeros. -/
def sampleMapEnv : MapEnv :=
  { pageSize := 4096, createFileMappingResult := .ok (),
    mapViewResult := .ok (), mem := fun _ => 0 }

/-- The region produced by `newMemoryRegionImpl sampleMapEnv` at offset
4100 and size 64: page offset 4, 68 mapped bytes. -/
def sampleRegion : MemoryRegionImpl :=
  { data := (List.range 68).map (fun _ => 0), size := 64, pageOffset := 4 }

/-! ## Theorems for the claims -/

/-- C10: `memoryObject.Size` never reports an error: when the stat of the
backing file fails it returns `0` rather than propagating the failure,
otherwise it returns the file size; a stat failure is therefore
indistinguishable from an empty object. -/
theorem memoryObjectSize_total :
    (∀ e : OSError, memoryObjectSize (.error e) = 0) ∧
    (∀ sz : Int, memoryObjectSize (.ok sz) = sz) ∧
    (∀ e : OSError, memoryObjectSize (.error e) = memoryObjectSize (.ok 0)) :=
  ⟨fun _ => rfl, fun _ => rfl, fun _ => rfl⟩

/-- C7: destroying a missing object succeeds: when the path resolves and
`os.Remove` reports not-exist, `destroyMemoryObject` returns nil, and
`DestroyFifo` on a missing fifo path returns nil as well. -/
theorem destroy_missing_is_success (env : FsEnv) (name path : String)
    (hpath : (shmName env name).1 = .ok path)
    (hshm : env.removeResult path = some .notExist)
    (hfifo : env.removeResult (fifoPath name) = some .notExist) :
    destroyMemoryObject env name = none ∧ DestroyFifo env name = none := by
  constructor
  · simp [destroyMemoryObject, hpath, hshm, OSError.isNotExist]
  · simp [DestroyFifo, hfifo, OSError.isNotExist]

/-- Witness for C7 at a concrete environment where every removal reports
not-exist. -/
theorem destroy_missing_is_success_witness :
    destroyMemoryObject
        ⟨"/tmp", fun _ _ => none, fun _ => some .notExist⟩ "m" = none ∧
    DestroyFifo ⟨"/tmp", fun _ _ => none, fun _ => some .notExist⟩ "m" = none :=
  destroy_missing_is_success ⟨"/tmp", fun _ _ => none, fun _ => some .notExist⟩
    "m" "/tmp/go-ipc/m" (by rfl) (by rfl) (by rfl)

/-- C8: the file-backed fallback lives under `<system temp>/go-ipc`: a
successfully resolved `shmName` equals
`os.TempDir() + "/go-ipc" + "/" + name`, and the only directory-creation
call made is `os.Mkdir` of that directory with permission mode 0644. -/
theorem shm_path_layout (env : FsEnv) (name path : String)
    (h : (shmName env name).1 = .ok path) :
    path = env.tempDir ++ "/go-ipc" ++ "/" ++ name ∧
    (shmName env name).2 = [MkdirCall.mk (env.tempDir ++ "/go-ipc") 0o644] := by
  rcases hm : env.mkdirResult (env.tempDir ++ "/go-ipc") 0o644 with _ | e
  · simp [shmName, sharedDirName, hm] at h ⊢
    exact h.symm
  · by_cases he : e.isExist = true
    · simp [shmName, sharedDirName, hm, he] at h ⊢
      exact h.symm
    · simp [shmName, sharedDirName, hm, he] at h

/-- Witness for C8 at a concrete environment whose temp dir is `/tmp`. -/
theorem shm_path_layout_witness :
    "/tmp/go-ipc/m" = "/tmp" ++ "/go-ipc" ++ "/" ++ "m" ∧
    (shmName ⟨"/tmp", fun _ _ => none, fun _ => none⟩ "m").2 =
      [MkdirCall.mk ("/tmp" ++ "/go-ipc") 0o644] :=
  shm_path_layout ⟨"/tmp", fun _ _ => none, fun _ => none⟩ "m" "/tmp/go-ipc/m"
    (by rfl)

/-- C6: the Windows mutex implementation in package ipc does nothing in
the `O_OPEN_ONLY` case: it makes no OS call and returns a `mutexImpl`
whose handle is the zero value, regardless of how `createMutex` would
behave. -/
theorem newMutexImpl_openOnly_no_call
    (createResult : String → Except OSError Nat) (name : String) :
    newMutexImpl createResult name .openOnly = (.ok { handle := 0 }, []) :=
  rfl

/-- C1: the shared word is initialized only by the creator: in every run
of `NewFutexMutex` and of `NewSemaMutex`, `lwm.init()` is called exactly
when the call succeeds and the shared-memory object was created by that
call; in particular an opener of an existing object (`created = false`)
never writes the word, and no failed construction writes it either. -/
theorem lwm_init_iff_creator (fenv : FutexEnv) (senv : SemaEnv) (name : String) :
    (NewFutexMutex fenv name).2.initCalled =
      (exceptIsOk (NewFutexMutex fenv name).1 &&
        (NewFutexMutex fenv name).2.createdFlag) ∧
    (NewSemaMutex senv name).2.initCalled =
      (exceptIsOk (NewSemaMutex senv name).1 &&
        (NewSemaMutex senv name).2.createdFlag) := by
  constructor
  · cases hf : fenv.flagOk with
    | false => simp [NewFutexMutex, hf, exceptIsOk]
    | true =>
      cases hs : fenv.shmResult (mutexSharedStateName name "f") with
      | error e => simp [NewFutexMutex, hf, hs, exceptIsOk]
      | ok created =>
        cases hr : fenv.regionResult with
        | error e => simp [NewFutexMutex, hf, hs, hr, exceptIsOk]
        | ok u => simp [NewFutexMutex, hf, hs, hr, exceptIsOk]
  · cases hf : senv.flagOk with
    | false => simp [NewSemaMutex, hf, exceptIsOk]
    | true =>
      cases hs : senv.cwrResult (mutexSharedStateName name "s") with
      | error e => simp [NewSemaMutex, hf, hs, exceptIsOk]
      | ok created =>
        cases hr : senv.semaResult with
        | error e => simp [NewSemaMutex, hf, hs, hr, exceptIsOk]
        | ok u => simp [NewSemaMutex, hf, hs, hr, exceptIsOk]

/-- C2: the futex variant binds its shared state to the derived name with
suffix `"f"`, the semaphore variant to the derived name with suffix `"s"`,
in construction and in destruction alike, and for one user name the two
derived names always differ. -/
theorem derived_state_names (fenv : FutexEnv) (senv : SemaEnv)
    (d : String → Option String) (name : String)
    (hf : fenv.flagOk = true) (hs : senv.flagOk = true) :
    (NewFutexMutex fenv name).2.objName = some (mutexSharedStateName name "f") ∧
    (NewSemaMutex senv name).2.objName = some (mutexSharedStateName name "s") ∧
    (DestroyFutexMutex d name).2.objName = mutexSharedStateName name "f" ∧
    (DestroySemaMutex d name).2.objName = mutexSharedStateName name "s" ∧
    mutexSharedStateName name "f" ≠ mutexSharedStateName name "s" := by
  refine ⟨?_, ?_, ?_, ?_, ?_⟩
  · cases hr : fenv.shmResult (mutexSharedStateName name "f") with
    | error e => simp [NewFutexMutex, hf, hr]
    | ok created =>
      cases hg : fenv.regionResult with
      | error e => simp [NewFutexMutex, hf, hr, hg]
      | ok u => simp [NewFutexMutex, hf, hr, hg]
  · cases hr : senv.cwrResult (mutexSharedStateName name "s") with
    | error e => simp [NewSemaMutex, hs, hr]
    | ok created =>
      cases hg : senv.semaResult with
      | error e => simp [NewSemaMutex, hs, hr, hg]
      | ok u => simp [NewSemaMutex, hs, hr, hg]
  · cases hd : d (mutexSharedStateName name "f") with
    | none => simp [DestroyFutexMutex, hd]
    | some e => simp [DestroyFutexMutex, hd]
  · cases hd : d (mutexSharedStateName name "s") with
    | none => simp [DestroySemaMutex, hd]
    | some e => simp [DestroySemaMutex, hd]
  · intro h
    have h2 := congrArg String.data h
    simp only [mutexSharedStateName, String.data_append] at h2
    have h3 := List.append_cancel_left h2
    simp at h3

/-- Witness for C2 at concrete environments that accept the flags. -/
theorem derived_state_names_witness :
    (NewFutexMutex ⟨true, fun _ => .ok true, .ok ()⟩ "m").2.objName =
      some (mutexSharedStateName "m" "f") ∧
    (NewSemaMutex ⟨true, fun _ => .ok true, .ok ()⟩ "m").2.objName =
      some (mutexSharedStateName "m" "s") ∧
    (DestroyFutexMutex (fun _ => none) "m").2.objName =
      mutexSharedStateName "m" "f" ∧
    (DestroySemaMutex (fun _ => none) "m").2.objName =
      mutexSharedStateName "m" "s" ∧
    mutexSharedStateName "m" "f" ≠ mutexSharedStateName "m" "s" :=
  derived_state_names ⟨true, fun _ => .ok true, .ok ()⟩
    ⟨true, fun _ => .ok true, .ok ()⟩ (fun _ => none) "m" rfl rfl

/-- C3: a constructor failure after the shared-memory object was obtained
leaves no OS state behind: the object handle is closed, a mapped region is
closed, and when this very call created the object its OS name is
destroyed — for `NewFutexMutex` and `NewSemaMutex` alike. -/
theorem constructor_failure_cleanup (fenv : FutexEnv) (senv : SemaEnv)
    (name : String) (fc sc : Bool)
    (hff : fenv.flagOk = true)
    (hfshm : fenv.shmResult (mutexSharedStateName name "f") = .ok fc)
    (hsf : senv.flagOk = true)
    (hscwr : senv.cwrResult (mutexSharedStateName name "s") = .ok sc) :
    (exceptIsOk (NewFutexMutex fenv name).1 = false →
      (NewFutexMutex fenv name).2.objClosed = true ∧
      ((NewFutexMutex fenv name).2.regionMapped = true →
        (NewFutexMutex fenv name).2.regionClosed = true) ∧
      (NewFutexMutex fenv name).2.objDestroyed = fc) ∧
    (exceptIsOk (NewSemaMutex senv name).1 = false →
      (NewSemaMutex senv name).2.objClosed = true ∧
      ((NewSemaMutex senv name).2.regionMapped = true →
        (NewSemaMutex senv name).2.regionClosed = true) ∧
      (NewSemaMutex senv name).2.objDestroyed = sc) := by
  constructor
  · unfold NewFutexMutex
    simp only [hff, hfshm]
    rcases fenv.regionResult with e | u
    · intro _
      exact ⟨rfl, fun h => by simp at h, rfl⟩
    · intro h
      simp [exceptIsOk] at h
  · unfold NewSemaMutex
    simp only [hsf, hscwr]
    rcases senv.semaResult with e | u
    · intro _
      exact ⟨rfl, fun _ => rfl, rfl⟩
    · intro h
      simp [exceptIsOk] at h

/-- Witness for C3 at concrete environments whose region and semaphore
calls fail after the object was created. -/
theorem constructor_failure_cleanup_witness :
    (exceptIsOk (NewFutexMutex ⟨true, fun _ => .ok true, .error "e"⟩ "m").1 = false →
      (NewFutexMutex ⟨true, fun _ => .ok true, .error "e"⟩ "m").2.objClosed = true ∧
      ((NewFutexMutex ⟨true, fun _ => .ok true, .error "e"⟩ "m").2.regionMapped = true →
        (NewFutexMutex ⟨true, fun _ => .ok true, .error "e"⟩ "m").2.regionClosed = true) ∧
      (NewFutexMutex ⟨true, fun _ => .ok true, .error "e"⟩ "m").2.objDestroyed = true) ∧
    (exceptIsOk (NewSemaMutex ⟨true, fun _ => .ok true, .error "e"⟩ "m").1 = false →
      (NewSemaMutex ⟨true, fun _ => .ok true, .error "e"⟩ "m").2.objClosed = true ∧
      ((NewSemaMutex ⟨true, fun _ => .ok true, .error "e"⟩ "m").2.regionMapped = true →
        (NewSemaMutex ⟨true, fun _ => .ok true, .error "e"⟩ "m").2.regionClosed = true) ∧
      (NewSemaMutex ⟨true, fun _ => .ok true, .error "e"⟩ "m").2.objDestroyed = true) :=
  constructor_failure_cleanup ⟨true, fun _ => .ok true, .error "e"⟩
    ⟨true, fun _ => .ok true, .error "e"⟩ "m" true true rfl rfl rfl rfl

/-- C4: closing a futex mutex handle twice is a no-op: after a `Close`
that succeeded, a second `Close` succeeds as well, whatever the OS would
answer to a second unmap attempt. -/
theorem futexMutexClose_twice (r : MemoryRegion) (u1 u2 : Option String)
    (h : (futexMutexClose r u1).1 = none) :
    (futexMutexClose (futexMutexClose r u1).2 u2).1 = none := by
  unfold futexMutexClose memoryRegionClose at *
  rcases hc : r.closed with _ | _
  · simp [hc] at h ⊢
  · simp [hc] at h ⊢

/-- Witness for C4: a fresh region whose first unmap succeeds. -/
theorem futexMutexClose_twice_witness :
    (futexMutexClose (futexMutexClose ⟨false⟩ none).2 (some "e")).1 = none :=
  futexMutexClose_twice ⟨false⟩ none (some "e") rfl

/-- C5: mapping with an arbitrary offset aligns the offset down to page
size: the stored page offset is the distance `offset − aligned-down
offset` (that is `offset % pageSize`, so the amount mapped beyond the
request starts at a page-aligned file offset), the mapped slice holds
`size + that distance` bytes, and `Data()` drops exactly that distance
from the mapping base and has the requested length. -/
theorem region_mapping_alignment (env : MapEnv) (mode : MemMode)
    (offset size : Nat) (r : MemoryRegionImpl)
    (h : newMemoryRegionImpl env mode offset size = .ok r) :
    r.pageOffset = offset - (offset / env.pageSize) * env.pageSize ∧
    r.pageOffset = offset % env.pageSize ∧
    env.pageSize ∣ offset - r.pageOffset ∧
    r.data.length = size + offset % env.pageSize ∧
    memoryRegionImplData r = r.data.drop (offset % env.pageSize) ∧
    (memoryRegionImplData r).length = size := by
  have hmod : offset - (offset / env.pageSize) * env.pageSize = offset % env.pageSize := by
    rw [Nat.mod_def]
    ring_nf
  unfold newMemoryRegionImpl at h
  rcases hp : memProtAndFlagsFromMode mode with e | pf
  · rw [hp] at h
    simp at h
  · rw [hp] at h
    rcases hc : env.createFileMappingResult with e | u
    · rw [hc] at h
      simp at h
    · rw [hc] at h
      rcases hm : env.mapViewResult with e | u2
      · rw [hm] at h
        simp at h
      · rw [hm] at h
        simp only [Except.ok.injEq] at h
        subst h
        have hco : calcValidOffset env.pageSize offset = offset % env.pageSize := by
          simpa [calcValidOffset] using hmod
        refine ⟨rfl, hco, ?_, ?_, ?_, ?_⟩
        · show env.pageSize ∣ offset - calcValidOffset env.pageSize offset
          rw [hco]
          exact Nat.dvd_sub_mod offset
        · simp [hco]
        · simp [memoryRegionImplData, hco]
        · simp [memoryRegionImplData, hco]

/-- Witness for C5 at page size 4096, offset 4100 and size 64. -/
theorem region_mapping_alignment_witness :
    sampleRegion.pageOffset = 4100 - (4100 / sampleMapEnv.pageSize) * sampleMapEnv.pageSize ∧
    sampleRegion.pageOffset = 4100 % sampleMapEnv.pageSize ∧
    sampleMapEnv.pageSize ∣ 4100 - sampleRegion.pageOffset ∧
    sampleRegion.data.length = 64 + 4100 % sampleMapEnv.pageSize ∧
    memoryRegionImplData sampleRegion = sampleRegion.data.drop (4100 % sampleMapEnv.pageSize) ∧
    (memoryRegionImplData sampleRegion).length = 64 :=
  region_mapping_alignment sampleMapEnv .memReadWrite 4100 64 sampleRegion rfl

/-- Characterization of `checkNumericType`: it accepts exactly the kinds
from Bool (1) to Complex128 (16) and UnsafePointer (26). -/
theorem checkNumericType_ok_iff (k : Nat) :
    checkNumericType k = .ok () ↔ ((1 ≤ k && k ≤ 16) || k == 26) = true := by
  unfold checkNumericType
  by_cases h1 : (decide (1 ≤ k) && decide (k ≤ 16)) = true
  · simp [h1]
  · by_cases h2 : (k == 26) = true <;> simp [h1, h2]

mutual

/-- At nonzero depth, `checkType` succeeds exactly on slice-free
reference-free types. -/
theorem checkType_ok_iff_inner : ∀ (t : GoType) (d : Nat), d ≠ 0 →
    ((checkType t d = .ok ()) ↔ refFreeInner t = true)
  | .basic k s, _, _ => by
    simpa [checkType, refFreeInner] using checkNumericType_ok_iff k
  | .array n e, d, _ => by
    simpa [checkType, refFreeInner] using
      checkType_ok_iff_inner e (d + 1) (Nat.succ_ne_zero d)
  | .slice e, d, hd => by
    simp [checkType, hd, refFreeInner]
  | .struct fs, d, _ => by
    simpa [checkType, refFreeInner] using checkFields_ok_iff fs d

/-- The field loop of `checkType` succeeds exactly when every field is
slice-free reference-free. -/
theorem checkFields_ok_iff : ∀ (fs : List (String × GoType)) (d : Nat),
    ((checkFields fs d = .ok ()) ↔ refFreeFields fs = true)
  | [], _ => by simp [checkFields, refFreeFields]
  | f :: rest, d => by
    have hi := checkType_ok_iff_inner f.2 (d + 1) (Nat.succ_ne_zero d)
    have hr := checkFields_ok_iff rest d
    rcases hc : checkType f.2 (d + 1) with e | u
    · rw [hc] at hi
      have hf2 : refFreeInner f.2 = false := by simpa using hi
      simp [checkFields, hc, refFreeFields, hf2]
    · rw [hc] at hi
      have hf2 : refFreeInner f.2 = true := hi.mp (by cases u; rfl)
      simp [checkFields, hc, refFreeFields, hf2, hr]

end

/-- At depth zero, `checkType` succeeds exactly on reference-free types
where a slice may appear only at the top level. -/
theorem checkType_zero_iff (t : GoType) :
    (checkType t 0 = .ok ()) ↔ refFreeTop t = true := by
  cases t with
  | basic k s => simpa [checkType, refFreeTop, refFreeInner] using checkNumericType_ok_iff k
  | array n e =>
    simpa [checkType, refFreeTop, refFreeInner] using
      checkType_ok_iff_inner e 1 one_ne_zero
  | slice e =>
    simpa [checkType, refFreeTop] using checkType_ok_iff_inner e 1 one_ne_zero
  | struct fs =>
    simpa [checkType, refFreeTop, refFreeInner] using checkFields_ok_iff fs 0

/-- C9: `Alloc` copies the dereferenced value contiguous byte
representation into the buffer and succeeds exactly when the type is
reference-free (leaves are the bool/numeric/complex kinds or
unsafe.Pointer, structs and arrays of such are allowed, slices only at the
top level) and the byte size is at most `maxObjectSize` and at most the
buffer length; every error return leaves the buffer unchanged. -/
theorem alloc_pod_contract (memory : List Nat) (obj : GoObject)
    (hwf : obj.value.bytes.length = objectSize obj.value) :
    (exceptIsOk (Alloc memory (some obj)).1 = true ↔
      (refFreeTop obj.value.typ = true ∧
        objectSize obj.value ≤ maxObjectSize ∧
        objectSize obj.value ≤ memory.length)) ∧
    (exceptIsOk (Alloc memory (some obj)).1 = false →
      (Alloc memory (some obj)).2 = memory) ∧
    (exceptIsOk (Alloc memory (some obj)).1 = true →
      (Alloc memory (some obj)).2 =
        obj.value.bytes ++ memory.drop (objectSize obj.value)) := by
  by_cases h1 : objectSize obj.value > maxObjectSize
  · refine ⟨?_, ?_, ?_⟩ <;> simp [Alloc, h1, exceptIsOk]
  · by_cases h2 : objectSize obj.value > memory.length
    · refine ⟨?_, ?_, ?_⟩ <;> simp [Alloc, h1, h2, exceptIsOk]
    · rcases hc : checkType obj.value.typ 0 with e | u
      · have hrf : refFreeTop obj.value.typ = false := by
          have := checkType_zero_iff obj.value.typ
          rw [hc] at this
          simpa using this
        refine ⟨?_, ?_, ?_⟩ <;> simp [Alloc, h1, h2, hc, exceptIsOk, hrf]
      · have hrf : refFreeTop obj.value.typ = true :=
          (checkType_zero_iff obj.value.typ).mp (by cases u; exact hc)
        have hmin : min (objectSize obj.value) memory.length = objectSize obj.value :=
          Nat.min_eq_left (by omega)
        refine ⟨?_, ?_, ?_⟩
        · simp [Alloc, h1, h2, hc, exceptIsOk, hrf]
          omega
        · simp [Alloc, h1, h2, hc, exceptIsOk]
        · intro _
          simp [Alloc, h1, h2, hc, copyObjectData, hmin]
          rw [← hwf]

/-- Witness for C9: an eight-byte int value copied into a ten-byte
buffer. -/
theorem alloc_pod_contract_witness :
    (exceptIsOk (Alloc [9, 9, 9, 9, 9, 9, 9, 9, 9, 9]
        (some ⟨0, ⟨.basic 2 8, 0, [1, 2, 3, 4, 5, 6, 7, 8]⟩⟩)).1 = true ↔
      (refFreeTop (GoType.basic 2 8) = true ∧
        objectSize ⟨.basic 2 8, 0, [1, 2, 3, 4, 5, 6, 7, 8]⟩ ≤ maxObjectSize ∧
        objectSize ⟨.basic 2 8, 0, [1, 2, 3, 4, 5, 6, 7, 8]⟩ ≤
          [9, 9, 9, 9, 9, 9, 9, 9, 9, 9].length)) ∧
    (exceptIsOk (Alloc [9, 9, 9, 9, 9, 9, 9, 9, 9, 9]
        (some ⟨0, ⟨.basic 2 8, 0, [1, 2, 3, 4, 5, 6, 7, 8]⟩⟩)).1 = false →
      (Alloc [9, 9, 9, 9, 9, 9, 9, 9, 9, 9]
        (some ⟨0, ⟨.basic 2 8, 0, [1, 2, 3, 4, 5, 6, 7, 8]⟩⟩)).2 =
        [9, 9, 9, 9, 9, 9, 9, 9, 9, 9]) ∧
    (exceptIsOk (Alloc [9, 9, 9, 9, 9, 9, 9, 9, 9, 9]
        (some ⟨0, ⟨.basic 2 8, 0, [1, 2, 3, 4, 5, 6, 7, 8]⟩⟩)).1 = true →
      (Alloc [9, 9, 9, 9, 9, 9, 9, 9, 9, 9]
        (some ⟨0, ⟨.basic 2 8, 0, [1, 2, 3, 4, 5, 6, 7, 8]⟩⟩)).2 =
        [1, 2, 3, 4, 5, 6, 7, 8] ++
          [9, 9, 9, 9, 9, 9, 9, 9, 9, 9].drop
            (objectSize ⟨.basic 2 8, 0, [1, 2, 3, 4, 5, 6, 7, 8]⟩)) :=
  alloc_pod_contract [9, 9, 9, 9, 9, 9, 9, 9, 9, 9]
    ⟨0, ⟨.basic 2 8, 0, [1, 2, 3, 4, 5, 6, 7, 8]⟩⟩ rfl

end GoIpc
